import Mathlib

/-!
Verification of the flasher stub protocol engine
(`src/LuaNode_Esp32/esp-idf/components/esptool_py/esptool/flasher_stub/stub_flasher.c`).

The C file is embedded shallowly: machine integers are `Nat` with explicit
`% 2^w` where wrap-around matters, the external collaborators declared in the
headers (flash, SPI, register and UART access) are an oracle structure `Env`,
and their invocations are recorded as an explicit list of `Effect`s so that
"no side effect occurred" is a provable statement.
-/

namespace StubFlasher

/-- The constant `MAX_WRITE_BLOCK` for the ESP32 build.  Modelled from the spec: the value
comes from `stub_flasher.h`, which is not under `src/`; the spec only says the
buffers are "sized to the largest supported payload plus header and slack".
The concrete value does not decide any claim, only its positivity does. -/
def MAX_WRITE_BLOCK : Nat := 0x4000

/-! Command op codes.  Modelled from the spec: `stub_flasher.h` (which holds the
`esp_command` enum) is not under `src/`; the spec's dispatch table of §4.3
names the ops, and the numeric values are those of the serial protocol the
spec describes.  Only their pairwise distinctness matters to the claims. -/

def ESP_FLASH_BEGIN : Nat := 0x02
def ESP_FLASH_DATA : Nat := 0x03
def ESP_FLASH_END : Nat := 0x04
def ESP_WRITE_REG : Nat := 0x09
def ESP_READ_REG : Nat := 0x0a
def ESP_SPI_SET_PARAMS : Nat := 0x0b
def ESP_SPI_ATTACH : Nat := 0x0d
def ESP_SET_BAUD : Nat := 0x0f
def ESP_FLASH_DEFLATED_BEGIN : Nat := 0x10
def ESP_FLASH_DEFLATED_DATA : Nat := 0x11
def ESP_FLASH_DEFLATED_END : Nat := 0x12
def ESP_FLASH_VERIFY_MD5 : Nat := 0x13
def ESP_ERASE_FLASH : Nat := 0xd0
def ESP_ERASE_REGION : Nat := 0xd1
def ESP_READ_FLASH : Nat := 0xd2

/-! Error codes.  Modelled from the spec: the `esp_command_error` enum lives in
`stub_flasher.h`, which is not under `src/`.  The spec's §7 taxonomy gives the
distinct codes (BadDataLength, BadDataChecksum, NotInWriteMode,
NotImplemented; 0 = success); the numeric values are those of the serial
protocol the spec describes. -/

def ESP_OK : Nat := 0
def ESP_BAD_DATA_LEN : Nat := 0xc0
def ESP_BAD_DATA_CHECKSUM : Nat := 0xc1
def ESP_NOT_IN_FLASH_MODE : Nat := 0xc6
def ESP_CMD_NOT_IMPLEMENTED : Nat := 0xff

/-- A received command, as `cmd_loop` sees it through `esp_command_req_t`:
the 8-byte header fields plus the raw data buffer.  `data_buf` is a total
function because the physical buffer (`MAX_WRITE_BLOCK+64` bytes) is always
larger than any frame, so reads past `data_len` are defined (stale) bytes,
exactly as in the C. -/
structure Command where
  op : Nat
  data_len : Nat
  checksum : Nat
  data_buf : Nat → Nat

/-- The word `data_words[i]`: little-endian 32-bit read at byte offset `4*i` of the
data buffer (`uint32_t *data_words = (uint32_t *)command->data_buf`). -/
def dataWord (c : Command) (i : Nat) : Nat :=
  (c.data_buf (4*i) + 2^8 * c.data_buf (4*i+1) +
   2^16 * c.data_buf (4*i+2) + 2^24 * c.data_buf (4*i+3)) % 2^32

/-- One step of the checksum fold: `res ^= buf[i]` on a `uint8_t` accumulator. -/
def csStep (r b : Nat) : Nat := (r ^^^ b) % 2^8

/-- The function `calculate_checksum`: XOR of `0xef` and each byte of the given range. -/
def calculate_checksum (l : List Nat) : Nat := l.foldl csStep 0xef

/-- The function `verify_data_len`: exact-equality check of the header `data_len`. -/
def verify_data_len (c : Command) (len : Nat) : Nat :=
  if c.data_len = len then ESP_OK else ESP_BAD_DATA_LEN

/-- The value `payload_len = command->data_len - 16` as a C `int`, converted to
`uint32_t` for the comparison against `data_words[0]` (the `data_len` field
is `uint16_t`, so the `int` value can be negative and wraps mod `2^32`). -/
def payloadLenWord (c : Command) : Nat :=
  (((c.data_len : Int) - 16) % (2^32 : Int)).toNat

/-- The byte range `data_buf[16 .. data_len)` handed to `calculate_checksum`
and to the flash write pipeline.  When `payload_len` is not positive the C
`for` loop runs zero times, which `Nat` truncated subtraction reproduces. -/
def payloadBytes (c : Command) : List Nat :=
  (List.range' 16 (c.data_len - 16)).map c.data_buf

/-- C truth value of `a || b` once the left operand is known to be zero:
`1` if the right operand is non-zero, else `0`. -/
def cTruth (n : Nat) : Nat := if n = 0 then 0 else 1

/-- Oracle for the external collaborators (flash, SPI, registers) declared in
the headers included by `stub_flasher.c`; each `...Status` field is the return
code the collaborator would produce for the given arguments. -/
structure Env where
  regRead : Nat → Nat
  eraseChipStatus : Nat
  eraseRegionStatus : Nat → Nat → Nat
  md5Status : Nat → Nat → Nat
  flashBeginStatus : Nat → Nat → Nat
  flashDeflBeginStatus : Nat → Nat → Nat → Nat
  inFlashMode : Bool
  flashError : Nat
  flashEndStatus : Nat
  spiSetParamsError : Nat
  spiSetParamsStatus : Nat
  spiAttachStatus : Nat → Nat → Nat

/-- Observable collaborator invocations made by `cmd_loop` for one command. -/
inductive Effect where
  | eraseChip
  | eraseRegion (addr len : Nat)
  | md5 (addr len : Nat)
  | flashBegin (totalSize offset : Nat)
  | flashDeflBegin (uncompressedSize totalSize offset : Nat)
  | spiSetParams
  | spiAttach (hspi legacy : Nat)
  | writeReg (addr value : Nat)
  | flashEnd
  | setBaud (baud : Nat)
  | readFlash (offset len blockSize maxInFlight : Nat)
  | writeBlock (bytes : List Nat)
  | writeDeflBlock (bytes : List Nat)
  | flushUart
  | reboot
  deriving DecidableEq

/-- Outcome of processing one command in `cmd_loop`: the `value` field of the
response header, the trailing `error`/`status` bytes, the collaborator calls
made before and after the response is flushed, and whether the session ends
(`software_reset`). -/
structure CmdResult where
  value : Nat
  error : Nat
  status : Nat
  preEffects : List Effect
  postEffects : List Effect
  terminates : Bool
  deriving DecidableEq

/-- Error code of the FLASH_DATA / FLASH_DEFLATED_DATA pre-phase: start from
`get_flash_error()`, overwrite with BadDataLength if the embedded length word
mismatches, then overwrite with BadDataChecksum if the XOR checksum of
`data_buf[16..]` mismatches the header checksum field. -/
def flashDataError (env : Env) (c : Command) : Nat :=
  if env.inFlashMode then
    let e0 := env.flashError
    let e1 := if dataWord c 0 ≠ payloadLenWord c then ESP_BAD_DATA_LEN else e0
    if calculate_checksum (payloadBytes c) ≠ c.checksum then ESP_BAD_DATA_CHECKSUM else e1
  else ESP_NOT_IN_FLASH_MODE

/-- First stage of command processing (the big `switch` before the
error/status bytes are sent): (error, status, collaborator calls).  C's
short-circuit `error = verify_data_len(..) || handler(..)` yields the `int`
truth value `1` when either operand is non-zero, and skips the handler when
the length check already failed. -/
def dispatchPre (env : Env) (c : Command) : Nat × Nat × List Effect :=
  if c.op = ESP_ERASE_FLASH then
    if verify_data_len c 0 ≠ ESP_OK then (1, 0, [])
    else (cTruth env.eraseChipStatus, 0, [.eraseChip])
  else if c.op = ESP_ERASE_REGION then
    if verify_data_len c 8 ≠ ESP_OK then (1, 0, [])
    else (cTruth (env.eraseRegionStatus (dataWord c 0) (dataWord c 1)), 0,
      [.eraseRegion (dataWord c 0) (dataWord c 1)])
  else if c.op = ESP_SET_BAUD then
    (verify_data_len c 8, 0, [])
  else if c.op = ESP_READ_FLASH then
    (verify_data_len c 16, 0, [])
  else if c.op = ESP_FLASH_VERIFY_MD5 then
    if verify_data_len c 16 ≠ ESP_OK then (1, 0, [])
    else (cTruth (env.md5Status (dataWord c 0) (dataWord c 1)), 0,
      [.md5 (dataWord c 0) (dataWord c 1)])
  else if c.op = ESP_FLASH_BEGIN then
    if verify_data_len c 16 ≠ ESP_OK then (1, 0, [])
    else (cTruth (env.flashBeginStatus (dataWord c 1 * dataWord c 2 % 2^32) (dataWord c 3)), 0,
      [.flashBegin (dataWord c 1 * dataWord c 2 % 2^32) (dataWord c 3)])
  else if c.op = ESP_FLASH_DEFLATED_BEGIN then
    if verify_data_len c 16 ≠ ESP_OK then (1, 0, [])
    else (cTruth (env.flashDeflBeginStatus (dataWord c 0)
        (dataWord c 1 * dataWord c 2 % 2^32) (dataWord c 3)), 0,
      [.flashDeflBegin (dataWord c 0) (dataWord c 1 * dataWord c 2 % 2^32) (dataWord c 3)])
  else if c.op = ESP_FLASH_DATA ∨ c.op = ESP_FLASH_DEFLATED_DATA then
    (flashDataError env c, 0, [])
  else if c.op = ESP_FLASH_END ∨ c.op = ESP_FLASH_DEFLATED_END then
    (env.flashEndStatus, 0, [.flashEnd])
  else if c.op = ESP_SPI_SET_PARAMS then
    if verify_data_len c 24 ≠ ESP_OK then (1, 0, [])
    else (cTruth env.spiSetParamsError, env.spiSetParamsStatus, [.spiSetParams])
  else if c.op = ESP_SPI_ATTACH then
    if verify_data_len c 8 ≠ ESP_OK then (1, 0, [])
    else (cTruth (env.spiAttachStatus (dataWord c 0) (dataWord c 1 % 2^8)), 0,
      [.spiAttach (dataWord c 0) (dataWord c 1 % 2^8)])
  else if c.op = ESP_WRITE_REG then
    (verify_data_len c 16, 0,
      if verify_data_len c 16 = ESP_OK then [.writeReg (dataWord c 0) (dataWord c 1)] else [])
  else if c.op = ESP_READ_REG then
    (verify_data_len c 4, 0, [])
  else (ESP_CMD_NOT_IMPLEMENTED, 0, [])

/-- Second stage (`if (error == ESP_OK) switch(...)` after the response is
flushed): post-response collaborator calls and whether `software_reset` runs. -/
def dispatchPost (c : Command) (error : Nat) : List Effect × Bool :=
  if error = ESP_OK then
    if c.op = ESP_SET_BAUD then ([.setBaud (dataWord c 0)], false)
    else if c.op = ESP_READ_FLASH then
      ([.readFlash (dataWord c 0) (dataWord c 1) (dataWord c 2) (dataWord c 3)], false)
    else if c.op = ESP_FLASH_DATA then ([.writeBlock (payloadBytes c)], false)
    else if c.op = ESP_FLASH_DEFLATED_DATA then ([.writeDeflBlock (payloadBytes c)], false)
    else if c.op = ESP_FLASH_END then
      if dataWord c 0 = 0 then ([.flushUart, .reboot], true) else ([], false)
    else ([], false)
  else ([], false)

/-- One iteration of `cmd_loop` on a received command: build the response
header (READ_REG fills `value` before the header is sent), reject over-long
frames with the fixed pair (BadDataLength, 0xEE) before any dispatch, then
run the two dispatch stages. -/
def process (env : Env) (c : Command) : CmdResult :=
  let value : Nat :=
    if c.op = ESP_READ_REG ∧ c.data_len = 4 then env.regRead (dataWord c 0) else 0
  if c.data_len > MAX_WRITE_BLOCK + 16 then
    { value := value, error := ESP_BAD_DATA_LEN, status := 0xee,
      preEffects := [], postEffects := [], terminates := false }
  else
    let pre := dispatchPre env c
    let post := dispatchPost c pre.1
    { value := value, error := pre.1, status := pre.2.1,
      preEffects := pre.2.2, postEffects := post.1, terminates := post.2 }

/-! ## Receive path: `uart_isr_receive` over the double buffer `ub` -/

/-- Size of each receive buffer: `MAX_WRITE_BLOCK + 64`. -/
def BUF_SIZE : Nat := MAX_WRITE_BLOCK + 64

/-- Modelled from the spec: the SLIP decoder state of §4.1 (`slip.h`/`slip.c`
are not under `src/`); states {Normal, EscapePending}. -/
inductive SlipState where
  | normal
  | escaping
  deriving DecidableEq

/-- Result of feeding one raw byte to the decoder: nothing yet, one decoded
byte (`r >= 0` in the C), or the end-of-frame signal (`SLIP_FINISHED_FRAME`). -/
inductive SlipOut where
  | noByte
  | decodedByte (b : Nat)
  | finishedFrame
  deriving DecidableEq

/-- Modelled from the spec: `SLIP_recv_byte` (§4.1).  Marker byte 0xC0 ends a
frame, escape byte 0xDB defers; after an escape, 0xDC maps back to 0xC0 and
0xDD to 0xDB (any other escaped byte is emitted raw, the spec's "best effort"
open question). -/
def SLIP_recv_byte (b : Nat) (st : SlipState) : SlipOut × SlipState :=
  match st with
  | .escaping =>
    if b = 0xdc then (.decodedByte 0xc0, .normal)
    else if b = 0xdd then (.decodedByte 0xdb, .normal)
    else (.decodedByte b, .normal)
  | .normal =>
    if b = 0xc0 then (.finishedFrame, .normal)
    else if b = 0xdb then (.noByte, .escaping)
    else (.decodedByte b, .normal)

/-- The `uart_buf_t ub` state.  The two physical buffers are byte maps;
`readingA` tells whether `reading_buf` points at `buf_a`; `command` is the
ready pointer (`none` = NULL, `some true` = `buf_a`, `some false` = `buf_b`). -/
structure UartBuf where
  bufA : Nat → Nat
  bufB : Nat → Nat
  readingA : Bool
  read : Nat
  state : SlipState
  command : Option Bool

/-- Frame-completion block of `uart_isr_receive`: publish the buffer being
read as `command`, swap `reading_buf` to the other buffer, reset `read`. -/
def finishFrame (ub : UartBuf) : UartBuf :=
  { ub with command := some ub.readingA, readingA := !ub.readingA, read := 0 }

/-- The handler `uart_isr_receive(byte)`: feed the SLIP decoder; store a decoded byte at
offset `read` of the buffer being read and increment `read`, forcing
frame-completion when `read` hits the buffer size; on `SLIP_FINISHED_FRAME`
publish the frame.  Also returns the write offset used, if any, so that
memory safety is stateable. -/
def uart_isr_receive (byte : Nat) (ub : UartBuf) : UartBuf × Option Nat :=
  let (r, st) := SLIP_recv_byte byte ub.state
  match r with
  | .decodedByte b =>
    let ub1 : UartBuf :=
      { ub with
        state := st,
        bufA := if ub.readingA then Function.update ub.bufA ub.read b else ub.bufA,
        bufB := if ub.readingA then ub.bufB else Function.update ub.bufB ub.read b,
        read := ub.read + 1 }
    if ub1.read = BUF_SIZE then (finishFrame ub1, some ub.read)
    else (ub1, some ub.read)
  | .finishedFrame => (finishFrame { ub with state := st }, none)
  | .noByte => ({ ub with state := st }, none)

/-- State of `ub` right after `stub_main` zeroes the BSS and sets
`ub.reading_buf = ub.buf_a`. -/
def initUartBuf : UartBuf :=
  { bufA := fun _ => 0, bufB := fun _ => 0, readingA := true,
    read := 0, state := .normal, command := none }

/-- Run the receive handler over a byte sequence, collecting every write
offset it used. -/
def runBytes (ub : UartBuf) (bs : List Nat) : UartBuf × List Nat :=
  match bs with
  | [] => (ub, [])
  | b :: t =>
    let s := uart_isr_receive b ub
    let rest := runBytes s.1 t
    (rest.1, s.2.toList ++ rest.2)

/-- Contents of the physical buffer designated by `w` (`true` = `buf_a`). -/
def bufContents (ub : UartBuf) (w : Bool) : Nat → Nat :=
  if w then ub.bufA else ub.bufB

/-- Single-producer safety condition of §4.2: the ready pointer never
designates the buffer the receive path is currently filling. -/
def readyInv (ub : UartBuf) : Prop :=
  ∀ x, ub.command = some x → x ≠ ub.readingA

/-! ## Auxiliary definitions used only to state or instantiate claims -/

/-- The data-checksum rule exactly as the spec sentence words it: the checksum
is taken over "the remaining payload (everything after that length word)",
i.e. over `data_buf[4 .. data_len)`.  Stated for comparison with the source's
`calculate_checksum(command->data_buf + 16, payload_len)`. -/
def specChecksumBytes (c : Command) : List Nat :=
  (List.range' 4 (c.data_len - 4)).map c.data_buf

/-- The required exact payload length per op, as the dispatch table has it. -/
def requiredLen (op : Nat) : Option Nat :=
  if op = ESP_ERASE_FLASH then some 0
  else if op = ESP_ERASE_REGION then some 8
  else if op = ESP_SET_BAUD then some 8
  else if op = ESP_READ_FLASH then some 16
  else if op = ESP_FLASH_VERIFY_MD5 then some 16
  else if op = ESP_FLASH_BEGIN then some 16
  else if op = ESP_FLASH_DEFLATED_BEGIN then some 16
  else if op = ESP_SPI_SET_PARAMS then some 24
  else if op = ESP_SPI_ATTACH then some 8
  else if op = ESP_WRITE_REG then some 16
  else if op = ESP_READ_REG then some 4
  else none

/-- Ops whose handler call sits behind C's short-circuit `||`, so their
reported error byte is the `int` truth value `1` instead of a protocol code. -/
def collapsedError (op : Nat) : Bool :=
  (op == ESP_ERASE_FLASH) || (op == ESP_ERASE_REGION) || (op == ESP_FLASH_VERIFY_MD5) ||
  (op == ESP_FLASH_BEGIN) || (op == ESP_FLASH_DEFLATED_BEGIN) ||
  (op == ESP_SPI_SET_PARAMS) || (op == ESP_SPI_ATTACH)

/-- Byte map backed by a list (zero beyond the list, like the zeroed BSS). -/
def bufOf (l : List Nat) : Nat → Nat := fun i => l.getD i 0

/-- A concrete all-success collaborator oracle, in flash-write mode, whose
register file reads `0xDEADBEEF` everywhere. -/
def env0 : Env :=
  { regRead := fun _ => 0xdeadbeef,
    eraseChipStatus := 0, eraseRegionStatus := fun _ _ => 0,
    md5Status := fun _ _ => 0, flashBeginStatus := fun _ _ => 0,
    flashDeflBeginStatus := fun _ _ _ => 0,
    inFlashMode := true, flashError := 0, flashEndStatus := 0,
    spiSetParamsError := 0, spiSetParamsStatus := 0,
    spiAttachStatus := fun _ _ => 0 }

/-- FLASH_DEFLATED_END command with arg0 = 0. -/
def cDeflEnd : Command :=
  { op := ESP_FLASH_DEFLATED_END, data_len := 4, checksum := 0, data_buf := bufOf [0, 0, 0, 0] }

/-- FLASH_END command with arg0 = 0. -/
def cFlashEnd : Command :=
  { op := ESP_FLASH_END, data_len := 4, checksum := 0, data_buf := bufOf [0, 0, 0, 0] }

/-- FLASH_DATA command, 4 data bytes, correct length word, whose header
checksum matches the source's rule (bytes 16..20, all zero) but not the 4..20
rule of the spec sentence (byte 4 is 1). -/
def cDataSpecDiff : Command :=
  { op := ESP_FLASH_DATA, data_len := 20, checksum := 0xef,
    data_buf := bufOf [4, 0, 0, 0, 1, 0, 0, 0, 0, 0, 0, 0, 0, 0, 0, 0, 0, 0, 0, 0] }

/-- FLASH_DATA command, 4 data bytes, correct length word, wrong checksum. -/
def cDataBadCk : Command :=
  { op := ESP_FLASH_DATA, data_len := 20, checksum := 0,
    data_buf := bufOf [4, 0, 0, 0, 0, 0, 0, 0, 0, 0, 0, 0, 0, 0, 0, 0, 0, 0, 0, 0] }

/-- FLASH_DATA command, 1 data byte, wrong length word (5 instead of 1) and
also wrong header checksum (0 instead of 0xEF). -/
def cDataMMBadCk : Command :=
  { op := ESP_FLASH_DATA, data_len := 17, checksum := 0,
    data_buf := bufOf [5, 0, 0, 0, 0, 0, 0, 0, 0, 0, 0, 0, 0, 0, 0, 0, 0] }

/-- FLASH_DATA command, 1 data byte, wrong length word but matching checksum. -/
def cDataMMOkCk : Command :=
  { op := ESP_FLASH_DATA, data_len := 17, checksum := 0xef,
    data_buf := bufOf [5, 0, 0, 0, 0, 0, 0, 0, 0, 0, 0, 0, 0, 0, 0, 0, 0] }

/-- ERASE_REGION command with `data_len` off by one (9 instead of 8). -/
def cErase9 : Command :=
  { op := ESP_ERASE_REGION, data_len := 9, checksum := 0,
    data_buf := bufOf [0, 0, 0, 0, 0, 0, 0, 0, 0] }

/-- SET_BAUD command with `data_len` off by one (9 instead of 8). -/
def cBaud9 : Command :=
  { op := ESP_SET_BAUD, data_len := 9, checksum := 0,
    data_buf := bufOf [0, 0, 0, 0, 0, 0, 0, 0, 0] }

/-- ERASE_REGION command whose `data_len` exceeds `MAX_WRITE_BLOCK + 16`. -/
def cOversize : Command :=
  { op := ESP_ERASE_REGION, data_len := MAX_WRITE_BLOCK + 17, checksum := 0,
    data_buf := bufOf [] }

/-- READ_REG command for address 0x3FF00000. -/
def cReadReg : Command :=
  { op := ESP_READ_REG, data_len := 4, checksum := 0,
    data_buf := bufOf [0x00, 0x00, 0xf0, 0x3f] }

/-- FLASH_END command with an empty payload (`data_len = 0`). -/
def cFlashEnd0 : Command :=
  { op := ESP_FLASH_END, data_len := 0, checksum := 0, data_buf := bufOf [1] }

/-- A receive state mid-frame into `buf_a` with `buf_b` published as the
ready command. -/
def ubReady : UartBuf :=
  { bufA := fun _ => 0, bufB := fun _ => 0, readingA := true,
    read := 3, state := .normal, command := some false }

attribute [simp] ESP_FLASH_BEGIN ESP_FLASH_DATA ESP_FLASH_END ESP_WRITE_REG
  ESP_READ_REG ESP_SPI_SET_PARAMS ESP_SPI_ATTACH ESP_SET_BAUD
  ESP_FLASH_DEFLATED_BEGIN ESP_FLASH_DEFLATED_DATA ESP_FLASH_DEFLATED_END
  ESP_FLASH_VERIFY_MD5 ESP_ERASE_FLASH ESP_ERASE_REGION ESP_READ_FLASH
  ESP_OK ESP_BAD_DATA_LEN ESP_BAD_DATA_CHECKSUM ESP_NOT_IN_FLASH_MODE
  ESP_CMD_NOT_IMPLEMENTED MAX_WRITE_BLOCK

/-! ## Theorems -/

/-- On bytes (`< 2^8`) the truncating step is plain XOR, and the plain-XOR
fold of bytes stays below `2^8`. -/
theorem foldl_csStep_eq_xor (l : List Nat) :
    ∀ r : Nat, r < 2^8 → (∀ b ∈ l, b < 2^8) →
      l.foldl csStep r = l.foldl (· ^^^ ·) r ∧ l.foldl (· ^^^ ·) r < 2^8 := by
  induction l with
  | nil => intro r hr _; exact ⟨rfl, hr⟩
  | cons a t ih =>
    intro r hr hl
    have ha : a < 2^8 := hl a (List.mem_cons_self a t)
    have hx : r ^^^ a < 2^8 := Nat.bitwise_lt hr ha
    have hstep : csStep r a = r ^^^ a := Nat.mod_eq_of_lt hx
    have ht : ∀ b ∈ t, b < 2^8 := fun b hb => hl b (List.mem_cons_of_mem a hb)
    have := ih (r ^^^ a) hx ht
    simpa [List.foldl_cons, hstep] using this

/-- The XOR fold factors its seed out front. -/
theorem foldl_xor_seed (l : List Nat) :
    ∀ r : Nat, l.foldl (· ^^^ ·) r = r ^^^ l.foldl (· ^^^ ·) 0 := by
  induction l with
  | nil => intro r; simp
  | cons a t ih =>
    intro r
    have h1 := ih (r ^^^ a)
    have h2 := ih a
    simp only [List.foldl_cons, Nat.zero_xor]
    rw [h1, h2, Nat.xor_assoc]

/-- XOR shuffling used when a list element is replaced. -/
theorem xor_shuffle (a b f : Nat) : (a ^^^ f) ^^^ (a ^^^ b) = b ^^^ f := by
  rw [Nat.xor_comm a f, Nat.xor_assoc, Nat.xor_cancel_left, Nat.xor_comm f b]

/-- Replacing the byte at position `i` XORs the fold by old-byte ⊕ new-byte. -/
theorem foldl_xor_set (l : List Nat) :
    ∀ (i : Nat) (hi : i < l.length) (b : Nat),
      (l.set i b).foldl (· ^^^ ·) 0 =
        (l.foldl (· ^^^ ·) 0) ^^^ (l.get ⟨i, hi⟩ ^^^ b) := by
  induction l with
  | nil => intro i hi; exact absurd hi (Nat.not_lt_zero i)
  | cons a t ih =>
    intro i hi b
    cases i with
    | zero =>
      simp only [List.set, List.foldl_cons, List.get, Nat.zero_xor]
      rw [foldl_xor_seed t b, foldl_xor_seed t a, xor_shuffle]
    | succ j =>
      have hj : j < t.length := Nat.lt_of_succ_lt_succ hi
      simp only [List.set, List.foldl_cons, List.get, Nat.zero_xor]
      rw [foldl_xor_seed (t.set j b) a, foldl_xor_seed t a]
      rw [ih j hj b, Nat.xor_assoc]

/-- The fold of the checksum over a byte list, seed factored out: it equals
`0xEF ^^^ (plain XOR of the bytes)`. -/
theorem calculate_checksum_eq (l : List Nat) (hl : ∀ b ∈ l, b < 2^8) :
    calculate_checksum l = 0xef ^^^ l.foldl (· ^^^ ·) 0 := by
  have h := foldl_csStep_eq_xor l 0xef (by norm_num) hl
  rw [calculate_checksum, h.1, foldl_xor_seed]

/-! ### Dispatcher lemmas -/

/-- The post-response stage reaches its terminal (reboot) branch exactly for a
FLASH_END whose pre-stage succeeded with first payload word zero. -/
theorem dispatchPost_term_iff (c : Command) (e : Nat) :
    (dispatchPost c e).2 = true ↔
      (e = ESP_OK ∧ c.op = ESP_FLASH_END ∧ dataWord c 0 = 0) := by
  unfold dispatchPost
  split_ifs
  all_goals simp_all

/-- When the post-response stage terminates, its effects are exactly a UART
flush followed by the reboot. -/
theorem dispatchPost_reboot_effects (c : Command) (e : Nat)
    (h : (dispatchPost c e).2 = true) :
    (dispatchPost c e).1 = [Effect.flushUart, Effect.reboot] := by
  unfold dispatchPost at h ⊢
  split_ifs at h ⊢
  all_goals simp_all

/-- A non-zero pre-stage error suppresses every post-response action. -/
theorem dispatchPost_of_err (c : Command) (e : Nat) (h : e ≠ ESP_OK) :
    dispatchPost c e = ([], false) := by
  have h0 : ¬ e = 0 := by simpa using h
  simp [dispatchPost, h0]

/-- Pre-stage of FLASH_END / FLASH_DEFLATED_END: call `handle_flash_end` and
report its status, with no length verification at all. -/
theorem dispatchPre_end (env : Env) (c : Command)
    (h : c.op = ESP_FLASH_END ∨ c.op = ESP_FLASH_DEFLATED_END) :
    dispatchPre env c = (env.flashEndStatus, 0, [Effect.flashEnd]) := by
  rcases h with h | h <;> simp [dispatchPre, h]

/-- Pre-stage of FLASH_DATA / FLASH_DEFLATED_DATA: pure validation via
`flashDataError`, no collaborator call. -/
theorem dispatchPre_data (env : Env) (c : Command)
    (h : c.op = ESP_FLASH_DATA ∨ c.op = ESP_FLASH_DEFLATED_DATA) :
    dispatchPre env c = (flashDataError env c, 0, []) := by
  rcases h with h | h <;> simp [dispatchPre, h]

/-- Projections of `process` for a frame within the size bound. -/
theorem process_inrange (env : Env) (c : Command)
    (h : ¬ c.data_len > MAX_WRITE_BLOCK + 16) :
    (process env c).error = (dispatchPre env c).1 ∧
    (process env c).status = (dispatchPre env c).2.1 ∧
    (process env c).preEffects = (dispatchPre env c).2.2 ∧
    (process env c).postEffects = (dispatchPost c (dispatchPre env c).1).1 ∧
    (process env c).terminates = (dispatchPost c (dispatchPre env c).1).2 ∧
    (process env c).value =
      (if c.op = ESP_READ_REG ∧ c.data_len = 4 then env.regRead (dataWord c 0) else 0) := by
  simp only [gt_iff_lt, MAX_WRITE_BLOCK] at h
  simp [process, h]

/-! ### Claim theorems -/

/-- C5: a command whose `data_len` exceeds `MAX_WRITE_BLOCK + 16` is answered
with the fixed pair (BadDataLength, 0xEE) and no dispatch happens: no
pre-action, no post-action, no termination, whatever the op. -/
theorem oversize_frame_rejected (env : Env) (c : Command)
    (h : c.data_len > MAX_WRITE_BLOCK + 16) :
    (process env c).error = ESP_BAD_DATA_LEN ∧ (process env c).status = 0xee ∧
    (process env c).preEffects = [] ∧ (process env c).postEffects = [] ∧
    (process env c).terminates = false := by
  simp only [gt_iff_lt, MAX_WRITE_BLOCK] at h
  simp [process, h]

/-- Witness for C5 at a concrete oversize ERASE_REGION frame. -/
theorem oversize_frame_rejected_witness :
    cOversize.data_len > MAX_WRITE_BLOCK + 16 ∧
    (process env0 cOversize).error = ESP_BAD_DATA_LEN ∧
    (process env0 cOversize).status = 0xee ∧
    (process env0 cOversize).preEffects = [] :=
  ⟨by decide,
   (oversize_frame_rejected env0 cOversize (by decide)).1,
   (oversize_frame_rejected env0 cOversize (by decide)).2.1,
   (oversize_frame_rejected env0 cOversize (by decide)).2.2.1⟩

/-- C7: a READ_REG command with the exact 4-byte payload reads the register
at `data_words[0]` into the `value` field of the response header (set before
the header is emitted), and reports error 0. -/
theorem read_reg_reads_into_header (env : Env) (c : Command)
    (hop : c.op = ESP_READ_REG) (hlen : c.data_len = 4) :
    (process env c).value = env.regRead (dataWord c 0) ∧
    (process env c).error = ESP_OK ∧ (process env c).status = 0 := by
  have hmax : ¬ c.data_len > MAX_WRITE_BLOCK + 16 := by
    simp [hlen, MAX_WRITE_BLOCK]
  have hp := process_inrange env c hmax
  refine ⟨?_, ?_, ?_⟩
  · rw [hp.2.2.2.2.2]
    simp [hop, hlen]
  · rw [hp.1]
    simp [dispatchPre, verify_data_len, hop, hlen]
  · rw [hp.2.1]
    simp [dispatchPre, hop]

/-- Witness for C7: the backing register file of `env0` returns 0xDEADBEEF,
and the response header carries it with error 0. -/
theorem read_reg_reads_into_header_witness :
    (process env0 cReadReg).value = 0xdeadbeef ∧ (process env0 cReadReg).error = ESP_OK :=
  ⟨((read_reg_reads_into_header env0 cReadReg (by decide) (by decide)).1).trans (by decide),
   (read_reg_reads_into_header env0 cReadReg (by decide) (by decide)).2.1⟩

/-- C10: FLASH_END / FLASH_DEFLATED_END undergo no payload-length validation:
for any `data_len` within the size bound (0 included) the finalize pre-action
runs and the reported error is exactly the collaborator's finalize status, so
the dispatcher itself never injects BadDataLength for these ops. -/
theorem flash_end_skips_length_check (env : Env) (c : Command)
    (hop : c.op = ESP_FLASH_END ∨ c.op = ESP_FLASH_DEFLATED_END)
    (hmax : c.data_len ≤ MAX_WRITE_BLOCK + 16) :
    (process env c).error = env.flashEndStatus ∧
    (process env c).preEffects = [Effect.flashEnd] ∧
    (env.flashEndStatus ≠ ESP_BAD_DATA_LEN →
      (process env c).error ≠ ESP_BAD_DATA_LEN) := by
  have h1 : ¬ c.data_len > MAX_WRITE_BLOCK + 16 := by omega
  have hp := process_inrange env c h1
  have hpre := dispatchPre_end env c hop
  refine ⟨?_, ?_, ?_⟩
  · rw [hp.1, hpre]
  · rw [hp.2.2.1, hpre]
  · intro hne
    rw [hp.1, hpre]
    exact hne

/-- Witness for C10: FLASH_END with an empty payload still finalizes and
reports the collaborator's success. -/
theorem flash_end_skips_length_check_witness :
    (process env0 cFlashEnd0).error = ESP_OK ∧
    (process env0 cFlashEnd0).preEffects = [Effect.flashEnd] :=
  ⟨((flash_end_skips_length_check env0 cFlashEnd0 (Or.inl rfl) (by decide)).1).trans (by decide),
   (flash_end_skips_length_check env0 cFlashEnd0 (Or.inl rfl) (by decide)).2.1⟩

/-- C1 counterexample: a FLASH_DEFLATED_END whose finalize succeeds
(error = 0) and whose first payload word is 0 does NOT end the session: the
post-response reboot branch of `cmd_loop` matches `ESP_FLASH_END` only. -/
theorem deflated_end_does_not_terminate :
    (process env0 cDeflEnd).error = ESP_OK ∧ dataWord cDeflEnd 0 = 0 ∧
    (process env0 cDeflEnd).terminates = false ∧
    Effect.reboot ∉ (process env0 cDeflEnd).postEffects := by decide

/-- C1 as amended: the unique terminal transition of the dispatcher loop is a
FLASH_END (plain, not deflated) within the size bound whose finalize succeeds
and whose first payload word is 0; it reboots after flushing the response,
and nothing else ever terminates the loop. -/
theorem terminal_transition_unique (env : Env) (c : Command) :
    ((process env c).terminates = true ↔
      (c.data_len ≤ MAX_WRITE_BLOCK + 16 ∧ c.op = ESP_FLASH_END ∧
       env.flashEndStatus = ESP_OK ∧ dataWord c 0 = 0)) ∧
    ((process env c).terminates = true →
      (process env c).postEffects = [Effect.flushUart, Effect.reboot]) := by
  by_cases hmax : c.data_len > MAX_WRITE_BLOCK + 16
  · have hterm : (process env c).terminates = false := by
      simp only [gt_iff_lt, MAX_WRITE_BLOCK] at hmax
      simp [process, hmax]
    constructor
    · rw [hterm]
      simp only [MAX_WRITE_BLOCK] at hmax ⊢
      constructor
      · intro h; exact absurd h (by simp)
      · rintro ⟨h1, -⟩; omega
    · rw [hterm]; intro h; exact absurd h (by simp)
  · have hp := process_inrange env c hmax
    constructor
    · rw [hp.2.2.2.2.1, dispatchPost_term_iff]
      constructor
      · rintro ⟨he, hop, hw⟩
        rw [dispatchPre_end env c (Or.inl hop)] at he
        exact ⟨by omega, hop, he, hw⟩
      · rintro ⟨-, hop, he, hw⟩
        rw [dispatchPre_end env c (Or.inl hop)]
        exact ⟨he, hop, hw⟩
    · intro h
      rw [hp.2.2.2.2.1] at h
      rw [hp.2.2.2.1]
      exact dispatchPost_reboot_effects _ _ h

/-- Witness for the amended C1: a concrete successful FLASH_END with arg0 = 0
terminates with flush-then-reboot. -/
theorem terminal_transition_unique_witness :
    (process env0 cFlashEnd).terminates = true ∧
    (process env0 cFlashEnd).postEffects = [Effect.flushUart, Effect.reboot] :=
  ⟨(terminal_transition_unique env0 cFlashEnd).1.mpr (by decide),
   (terminal_transition_unique env0 cFlashEnd).2
     ((terminal_transition_unique env0 cFlashEnd).1.mpr (by decide))⟩

/-- C2 counterexample: a FLASH_DATA command that the dispatcher accepts
(error 0) although the checksum over "everything after the length word"
(bytes 4..data_len, as the claim words it) does not match the header checksum:
the source checksums `data_buf + 16`, not `data_buf + 4`. -/
theorem data_checksum_region_counterexample :
    env0.inFlashMode = true ∧
    (process env0 cDataSpecDiff).error = ESP_OK ∧
    calculate_checksum (specChecksumBytes cDataSpecDiff) ≠ cDataSpecDiff.checksum := by
  decide

/-- C2 as amended: for a FLASH_DATA / FLASH_DEFLATED_DATA in flash-write mode
the first payload word must equal `data_len - 16` (as a `uint32`), and the XOR
checksum is computed over the payload after its 16-byte data header
(`data_buf[16..data_len)`), with a checksum mismatch reported as
BadDataChecksum even over a simultaneous length-word mismatch. -/
theorem data_checksum_rule (env : Env) (c : Command)
    (hmode : env.inFlashMode = true)
    (hop : c.op = ESP_FLASH_DATA ∨ c.op = ESP_FLASH_DEFLATED_DATA)
    (hmax : c.data_len ≤ MAX_WRITE_BLOCK + 16) :
    (process env c).error =
      (if calculate_checksum (payloadBytes c) ≠ c.checksum then ESP_BAD_DATA_CHECKSUM
       else if dataWord c 0 ≠ payloadLenWord c then ESP_BAD_DATA_LEN
       else env.flashError) := by
  have h1 : ¬ c.data_len > MAX_WRITE_BLOCK + 16 := by omega
  have hp := process_inrange env c h1
  rw [hp.1, dispatchPre_data env c hop]
  unfold flashDataError
  by_cases hck : calculate_checksum (payloadBytes c) = c.checksum
  · by_cases hlw : dataWord c 0 = payloadLenWord c
    · simp [hmode, hck, hlw]
    · simp [hmode, hck, hlw]
  · simp [hmode, hck]

/-- Witness for the amended C2: a checksum mismatch on the 16-offset region
is reported as BadDataChecksum. -/
theorem data_checksum_rule_witness :
    (process env0 cDataBadCk).error = ESP_BAD_DATA_CHECKSUM :=
  (data_checksum_rule env0 cDataBadCk rfl (Or.inl rfl) (by decide)).trans (by decide)

/-- C3 counterexample: in flash-write mode, a FLASH_DATA whose embedded
length word mismatches the payload size is NOT always answered with
BadDataLength: when the checksum also mismatches, the later checksum check
overwrites the error with BadDataChecksum. -/
theorem bad_length_word_error_counterexample :
    env0.inFlashMode = true ∧
    dataWord cDataMMBadCk 0 ≠ payloadLenWord cDataMMBadCk ∧
    (process env0 cDataMMBadCk).error ≠ ESP_BAD_DATA_LEN ∧
    (process env0 cDataMMBadCk).error = ESP_BAD_DATA_CHECKSUM := by
  decide

/-- C3 as amended: in flash-write mode, a FLASH_DATA whose embedded length
word mismatches the payload size is rejected — as BadDataLength when the
payload checksum matches the header field, as BadDataChecksum otherwise — and
in either case nothing reaches the flash write pipeline: no pre-action and no
post-action (in particular no block write) is performed. -/
theorem bad_length_word_rejected (env : Env) (c : Command)
    (hmode : env.inFlashMode = true)
    (hop : c.op = ESP_FLASH_DATA)
    (hmax : c.data_len ≤ MAX_WRITE_BLOCK + 16)
    (hmm : dataWord c 0 ≠ payloadLenWord c) :
    (calculate_checksum (payloadBytes c) = c.checksum →
      (process env c).error = ESP_BAD_DATA_LEN) ∧
    (process env c).error ≠ ESP_OK ∧
    (process env c).preEffects = [] ∧
    (process env c).postEffects = [] := by
  have h1 : ¬ c.data_len > MAX_WRITE_BLOCK + 16 := by omega
  have hp := process_inrange env c h1
  have hpre := dispatchPre_data env c (Or.inl hop)
  have hfde : flashDataError env c ≠ ESP_OK := by
    unfold flashDataError
    by_cases hck : calculate_checksum (payloadBytes c) = c.checksum
    · simp [hmode, hck, hmm]
    · simp [hmode, hck]
  refine ⟨?_, ?_, ?_, ?_⟩
  · intro hck
    rw [hp.1, hpre]
    simp only [flashDataError, hmode, if_true]
    simp [hck, hmm]
  · rw [hp.1, hpre]
    exact hfde
  · rw [hp.2.2.1, hpre]
  · rw [hp.2.2.2.1, hpre, dispatchPost_of_err _ _ hfde]

/-- Witness for the amended C3: length-word mismatch with matching checksum
gives exactly BadDataLength and no forwarded bytes. -/
theorem bad_length_word_rejected_witness :
    (process env0 cDataMMOkCk).error = ESP_BAD_DATA_LEN ∧
    (process env0 cDataMMOkCk).postEffects = [] :=
  ⟨(bad_length_word_rejected env0 cDataMMOkCk rfl rfl (by decide) (by decide)).1 (by decide),
   (bad_length_word_rejected env0 cDataMMOkCk rfl rfl (by decide) (by decide)).2.2.2⟩

/-- C4 counterexample: ERASE_REGION with `data_len` off by one is rejected
with error byte 1 — the C `int` value of the short-circuit
`verify_data_len(..) || handler(..)` — not with the BadDataLength code (0xC0),
though the pre-action is indeed skipped. -/
theorem exact_length_error_code_counterexample :
    requiredLen cErase9.op = some 8 ∧ cErase9.data_len = 9 ∧
    (process env0 cErase9).error = 1 ∧
    (process env0 cErase9).error ≠ ESP_BAD_DATA_LEN ∧
    (process env0 cErase9).preEffects = [] := by
  decide

set_option maxHeartbeats 1600000 in
/-- C4 as amended: for every op with a required exact payload length, a
command whose `data_len` differs is rejected before any side effect: no
pre-action, no post-action, and a non-zero error — equal to BadDataLength for
SET_BAUD / READ_FLASH / WRITE_REG / READ_REG, but collapsed to the C truth
value 1 for the seven ops dispatched through short-circuit `||`. -/
theorem exact_length_enforced (env : Env) (c : Command) (L : Nat)
    (hL : requiredLen c.op = some L) (hne : c.data_len ≠ L)
    (hmax : c.data_len ≤ MAX_WRITE_BLOCK + 16) :
    (process env c).preEffects = [] ∧
    (process env c).postEffects = [] ∧
    (process env c).error = (if collapsedError c.op then 1 else ESP_BAD_DATA_LEN) ∧
    (process env c).error ≠ ESP_OK := by
  have key : dispatchPre env c =
      ((if collapsedError c.op then 1 else ESP_BAD_DATA_LEN), 0, ([] : List Effect)) := by
    unfold requiredLen at hL
    split_ifs at hL with o1 o2 o3 o4 o5 o6 o7 o8 o9 o10 o11
    · injection hL with hLe; subst hLe
      simp [dispatchPre, verify_data_len, collapsedError, o1, hne]
    · injection hL with hLe; subst hLe
      simp [dispatchPre, verify_data_len, collapsedError, o2, hne]
    · injection hL with hLe; subst hLe
      simp [dispatchPre, verify_data_len, collapsedError, o3, hne]
    · injection hL with hLe; subst hLe
      simp [dispatchPre, verify_data_len, collapsedError, o4, hne]
    · injection hL with hLe; subst hLe
      simp [dispatchPre, verify_data_len, collapsedError, o5, hne]
    · injection hL with hLe; subst hLe
      simp [dispatchPre, verify_data_len, collapsedError, o6, hne]
    · injection hL with hLe; subst hLe
      simp [dispatchPre, verify_data_len, collapsedError, o7, hne]
    · injection hL with hLe; subst hLe
      simp [dispatchPre, verify_data_len, collapsedError, o8, hne]
    · injection hL with hLe; subst hLe
      simp [dispatchPre, verify_data_len, collapsedError, o9, hne]
    · injection hL with hLe; subst hLe
      simp [dispatchPre, verify_data_len, collapsedError, o10, hne]
    · injection hL with hLe; subst hLe
      simp [dispatchPre, verify_data_len, collapsedError, o11, hne]
  have h1 : ¬ c.data_len > MAX_WRITE_BLOCK + 16 := by omega
  have hp := process_inrange env c h1
  have hX : (if collapsedError c.op then 1 else ESP_BAD_DATA_LEN) ≠ ESP_OK := by
    split_ifs <;> simp
  refine ⟨?_, ?_, ?_, ?_⟩
  · rw [hp.2.2.1, key]
  · rw [hp.2.2.2.1, key, dispatchPost_of_err _ _ hX]
  · rw [hp.1, key]
  · rw [hp.1, key]
    exact hX

/-- Witness for the amended C4: SET_BAUD (a direct, non-collapsed op) with
`data_len` 9 instead of 8 yields BadDataLength and no side effect. -/
theorem exact_length_enforced_witness :
    (process env0 cBaud9).error = ESP_BAD_DATA_LEN ∧
    (process env0 cBaud9).preEffects = [] ∧
    (process env0 cBaud9).postEffects = [] :=
  ⟨((exact_length_enforced env0 cBaud9 8 (by decide) (by decide) (by decide)).2.2.1).trans
     (by decide),
   (exact_length_enforced env0 cBaud9 8 (by decide) (by decide) (by decide)).1,
   (exact_length_enforced env0 cBaud9 8 (by decide) (by decide) (by decide)).2.1⟩

/-- C6: the checksum is the XOR fold seeded with 0xEF, it is deterministic,
and replacing any single byte by a different byte value changes the result. -/
theorem checksum_deterministic_sensitive :
    calculate_checksum [] = 0xef ∧
    (∀ l1 l2 : List Nat, l1 = l2 → calculate_checksum l1 = calculate_checksum l2) ∧
    (∀ (l : List Nat) (i : Nat) (hi : i < l.length) (b : Nat),
      (∀ x ∈ l, x < 2^8) → b < 2^8 → b ≠ l.get ⟨i, hi⟩ →
      calculate_checksum (l.set i b) ≠ calculate_checksum l) := by
  refine ⟨rfl, fun l1 l2 h => by rw [h], ?_⟩
  intro l i hi b hl hb hne heq
  have hset : ∀ x ∈ l.set i b, x < 2^8 := by
    intro x hx
    rcases List.mem_or_eq_of_mem_set hx with h | h
    · exact hl x h
    · subst h; exact hb
  rw [calculate_checksum_eq _ hset, calculate_checksum_eq _ hl,
    foldl_xor_set l i hi b] at heq
  have h2 : (l.foldl (· ^^^ ·) 0) ^^^ (l.get ⟨i, hi⟩ ^^^ b) =
      (l.foldl (· ^^^ ·) 0) ^^^ 0 := by
    rw [Nat.xor_zero]
    exact Nat.xor_right_inj.mp heq
  have h3 : l.get ⟨i, hi⟩ ^^^ b = 0 := Nat.xor_right_inj.mp h2
  exact hne (Nat.xor_eq_zero.mp h3).symm

/-- Witness for C6: changing the middle byte of [1, 2, 3] to 7 changes the
checksum. -/
theorem checksum_deterministic_sensitive_witness :
    calculate_checksum ([1, 2, 3].set 1 7) ≠ calculate_checksum [1, 2, 3] :=
  checksum_deterministic_sensitive.2.2 [1, 2, 3] 1 (by decide) 7 (by decide)
    (by decide) (by decide)

/-! ### Receive-path lemmas -/

/-- Per-byte step bound: from any state with a legal write offset, a decoded
byte is stored strictly inside the buffer, the offset stays legal, and
hitting the last cell forces frame-completion (publish + reset). -/
theorem uart_step_bounds (ub : UartBuf) (b : Nat) (h : ub.read < BUF_SIZE) :
    (∀ i, (uart_isr_receive b ub).2 = some i → i < BUF_SIZE) ∧
    (uart_isr_receive b ub).1.read < BUF_SIZE ∧
    ((uart_isr_receive b ub).2 = some (BUF_SIZE - 1) →
      (uart_isr_receive b ub).1.command = some ub.readingA ∧
      (uart_isr_receive b ub).1.read = 0) := by
  have hpos : 0 < BUF_SIZE := by simp [BUF_SIZE, MAX_WRITE_BLOCK]
  unfold uart_isr_receive
  rcases SLIP_recv_byte b ub.state with ⟨r, st⟩
  cases r with
  | noByte => simpa using h
  | finishedFrame => simpa [finishFrame] using hpos
  | decodedByte v =>
    dsimp only
    by_cases hful : ub.read + 1 = BUF_SIZE
    · rw [if_pos hful]
      refine ⟨fun i hi => ?_, ?_, fun _ => by simp [finishFrame]⟩
      · simp only at hi
        injection hi with hi
        omega
      · simpa [finishFrame] using hpos
    · rw [if_neg hful]
      refine ⟨fun i hi => ?_, ?_, fun hi => ?_⟩
      · simp only at hi
        injection hi with hi
        omega
      · show ub.read + 1 < BUF_SIZE
        omega
      · exfalso
        simp only at hi
        injection hi with hi
        omega

/-- The write-offset bound holds along any byte trace. -/
theorem runBytes_bounds (bs : List Nat) :
    ∀ ub : UartBuf, ub.read < BUF_SIZE →
      (runBytes ub bs).1.read < BUF_SIZE ∧ ∀ i ∈ (runBytes ub bs).2, i < BUF_SIZE := by
  induction bs with
  | nil => intro ub h; simpa [runBytes] using h
  | cons b t ih =>
    intro ub h
    have hstep := uart_step_bounds ub b h
    have hrec := ih (uart_isr_receive b ub).1 hstep.2.1
    refine ⟨by simpa [runBytes] using hrec.1, ?_⟩
    intro i hi
    simp only [runBytes, List.mem_append] at hi
    rcases hi with hi | hi
    · cases hopt : (uart_isr_receive b ub).2 with
      | none => rw [hopt] at hi; simp at hi
      | some j =>
        rw [hopt] at hi
        simp only [Option.toList, List.mem_singleton] at hi
        subst hi
        exact hstep.1 _ hopt
    · exact hrec.2 i hi

/-- C8: the receive handler never writes a decoded byte outside the buffer:
every write offset it ever uses (from the initial state, over any incoming
byte sequence, and from any state with a legal offset) is strictly below
`MAX_WRITE_BLOCK + 64`, and reaching the capacity forces frame-completion,
publishing the truncated frame and resetting the offset to 0. -/
theorem receive_never_overflows :
    (∀ (ub : UartBuf) (b : Nat), ub.read < BUF_SIZE →
      ((∀ i, (uart_isr_receive b ub).2 = some i → i < BUF_SIZE) ∧
       (uart_isr_receive b ub).1.read < BUF_SIZE ∧
       ((uart_isr_receive b ub).2 = some (BUF_SIZE - 1) →
         (uart_isr_receive b ub).1.command = some ub.readingA ∧
         (uart_isr_receive b ub).1.read = 0))) ∧
    (∀ bs : List Nat, ∀ i ∈ (runBytes initUartBuf bs).2, i < BUF_SIZE) :=
  ⟨uart_step_bounds,
   fun bs => (runBytes_bounds bs initUartBuf (by decide)).2⟩

/-- Witness for C8 at a concrete state and byte. -/
theorem receive_never_overflows_witness :
    (uart_isr_receive 0x41 initUartBuf).1.read < BUF_SIZE :=
  (receive_never_overflows.1 initUartBuf 0x41 (by decide)).2.1

/-- Per-byte step of the producer/consumer invariant: the ready pointer and
the receive target stay distinct, and the step never modifies the contents of
a buffer published as ready. -/
theorem uart_step_ready (ub : UartBuf) (b : Nat) (h : readyInv ub) :
    readyInv (uart_isr_receive b ub).1 ∧
    (∀ x, ub.command = some x →
      bufContents ((uart_isr_receive b ub).1) x = bufContents ub x) := by
  unfold uart_isr_receive
  rcases SLIP_recv_byte b ub.state with ⟨r, st⟩
  cases r with
  | noByte => exact ⟨fun x hx => h x hx, fun x _ => rfl⟩
  | finishedFrame =>
    refine ⟨?_, fun x _ => rfl⟩
    intro x hx
    simp only [finishFrame, Option.some.injEq] at hx
    subst hx
    simp only [finishFrame]
    cases ub.readingA <;> simp
  | decodedByte v =>
    dsimp only
    by_cases hful : ub.read + 1 = BUF_SIZE
    · rw [if_pos hful]
      constructor
      · intro x hx
        simp only [finishFrame, Option.some.injEq] at hx
        subst hx
        simp only [finishFrame]
        cases ub.readingA <;> simp
      · intro x hx
        have hxne := h x hx
        simp only [finishFrame, bufContents]
        cases hra : ub.readingA
        · cases x
          · exact absurd hra.symm hxne
          · simp [hra]
        · cases x
          · simp [hra]
          · exact absurd hra.symm hxne
    · rw [if_neg hful]
      constructor
      · intro x hx
        exact h x hx
      · intro x hx
        have hxne := h x hx
        simp only [bufContents]
        cases hra : ub.readingA
        · cases x
          · exact absurd hra.symm hxne
          · simp [hra]
        · cases x
          · simp [hra]
          · exact absurd hra.symm hxne

/-- The producer/consumer invariant holds along any byte trace. -/
theorem runBytes_ready (bs : List Nat) :
    ∀ ub : UartBuf, readyInv ub → readyInv (runBytes ub bs).1 := by
  induction bs with
  | nil => intro ub h; simpa [runBytes] using h
  | cons b t ih =>
    intro ub h
    have hstep := uart_step_ready ub b h
    simpa [runBytes] using ih (uart_isr_receive b ub).1 hstep.1

/-- C9: on every frame completion the ready pointer is set to the buffer just
filled while reception swaps to the other buffer, so the ready pointer and
the receive target never coincide (from the initial state, along any trace),
and the producer never writes into a buffer while it is published as ready. -/
theorem ready_buffer_never_written :
    (∀ (ub : UartBuf) (b : Nat), readyInv ub →
      readyInv (uart_isr_receive b ub).1 ∧
      (∀ x, ub.command = some x →
        bufContents ((uart_isr_receive b ub).1) x = bufContents ub x)) ∧
    (∀ bs : List Nat, readyInv (runBytes initUartBuf bs).1) :=
  ⟨uart_step_ready,
   fun bs => runBytes_ready bs initUartBuf (fun x hx => by simp [initUartBuf] at hx)⟩

/-- Witness for C9: with `buf_b` published as ready, a data byte received
mid-frame leaves the contents of `buf_b` untouched. -/
theorem ready_buffer_never_written_witness :
    bufContents ((uart_isr_receive 0x41 ubReady).1) false = bufContents ubReady false :=
  (ready_buffer_never_written.1 ubReady 0x41
    (fun x hx => by cases x <;> simp_all [ubReady])).2 false rfl

end StubFlasher
